import Mathlib

/-!
Verification development for the TSA checkpoint travel-numbers ETL repository.

The Python source is shallowly embedded: a pandas DataFrame becomes an ordered
list of (column name, column values) pairs; cell values are strings, integers
or calendar dates; operations that can raise become Option/Except-valued
functions; network and warehouse effects are modelled by explicit oracles for
the outcome of each statement.
-/

namespace TsaEtl

/-- A calendar date (year, month, day), as produced by
`pd.to_datetime(..., format="%m/%d/%Y").dt.date`. -/
structure Date where
  year : Nat
  month : Nat
  day : Nat
deriving DecidableEq

/-- A cell value of an in-memory table: pandas cells relevant to this program
are strings, 64-bit integers, or calendar dates. -/
inductive Value where
  | str (s : String)
  | int (n : Int)
  | date (d : Date)
deriving DecidableEq

/-- An in-memory table: ordered association list of column name to the list of
that column's values (pandas DataFrame, columns in order). -/
structure DataFrame where
  cols : List (String × List Value)
deriving DecidableEq

/-- Elementwise fallible map (`Option`-valued `map`): `none` as soon as one
element fails, as a raising elementwise pandas operation does. -/
def mapOption (f : α → Option β) : List α → Option (List β)
  | [] => some []
  | a :: as => do
    let b ← f a
    let bs ← mapOption f as
    some (b :: bs)

/-- Unfolding equation of `mapOption` on a cons cell. -/
theorem mapOption_cons (f : α → Option β) (a : α) (as : List α) :
    mapOption f (a :: as) =
      (f a).bind fun b => (mapOption f as).bind fun bs => some (b :: bs) := rfl

/-- Number of rows, read off the first column (pandas `len(df)` for the
dataframes this program builds). -/
def DataFrame.numRows (df : DataFrame) : Nat :=
  match df.cols with
  | [] => 0
  | c :: _ => c.2.length

/-- Look a column up by name (`df[name]`, `Option`-valued: a missing column is
a `KeyError`). -/
def DataFrame.getCol (df : DataFrame) (name : String) : Option (List Value) :=
  df.cols.lookup name

/-- Replace the values of the column `name`, keeping its position
(`df[name] = vals` for an existing column). -/
def DataFrame.setCol (df : DataFrame) (name : String) (vals : List Value) : DataFrame :=
  ⟨df.cols.map fun c => if c.1 = name then (name, vals) else c⟩

/-- Column projection `df.loc[:, names]`: the named columns, in the requested
order; `none` when one is missing. -/
def DataFrame.selectCols (df : DataFrame) (names : List String) : Option DataFrame :=
  (mapOption (fun n => (df.cols.lookup n).map fun vs => (n, vs)) names).map DataFrame.mk

/-- Rename columns through an association list (`df.rename(columns=...)`):
names not in the mapping are kept. -/
def DataFrame.renameCol (df : DataFrame) (mapping : List (String × String)) : DataFrame :=
  ⟨df.cols.map fun c => ((mapping.lookup c.1).getD c.1, c.2)⟩

/-- `df.assign(k=v)` with a scalar `v`: overwrite the column in place when the
name exists, otherwise append a new constant column on the right. -/
def DataFrame.assignConst (df : DataFrame) (k : String) (v : Value) : DataFrame :=
  if (df.cols.lookup k).isSome then
    ⟨df.cols.map fun c => if c.1 = k then (k, List.replicate df.numRows v) else c⟩
  else
    ⟨df.cols ++ [(k, List.replicate df.numRows v)]⟩

/-- Python `str.upper()` on the ASCII column names this program uses:
uppercase each character. -/
def strUpper (s : String) : String :=
  ⟨s.data.map Char.toUpper⟩

/-- `df.columns.str.upper()`: uppercase every column name. -/
def DataFrame.upperCols (df : DataFrame) : DataFrame :=
  ⟨df.cols.map fun c => (strUpper c.1, c.2)⟩

/-- Gregorian leap-year test. -/
def isLeap (y : Nat) : Bool :=
  (y % 4 = 0 && y % 100 ≠ 0) || y % 400 = 0

/-- Length of month `m` in year `y`. -/
def daysInMonth (y m : Nat) : Nat :=
  if m = 2 then (if isLeap y then 29 else 28)
  else if m = 4 ∨ m = 6 ∨ m = 9 ∨ m = 11 then 30
  else 31

/-- Split a character list on `/` (the field separator of `%m/%d/%Y`);
splitting an empty input yields one empty field, as Python's `split` does. -/
def splitOnSlash : List Char → List (List Char)
  | [] => [[]]
  | c :: rest =>
    let r := splitOnSlash rest
    if c = '/' then [] :: r
    else
      match r with
      | [] => [[c]]
      | g :: gs => (c :: g) :: gs

/-- Parse a nonempty all-digit character list as a decimal number. -/
def digitsToNat? (cs : List Char) : Option Nat :=
  if cs ≠ [] ∧ cs.all Char.isDigit then
    some (cs.foldl (fun n c => n * 10 + (c.toNat - 48)) 0)
  else none

/-- Strict parse of a date string in `%m/%d/%Y` format
(`pd.to_datetime(s, format="%m/%d/%Y")`): three `/`-separated decimal fields
forming a valid calendar date. -/
def parseDateMDY (s : String) : Option Date :=
  match splitOnSlash s.data with
  | [ms, dcs, ys] => do
    let m ← digitsToNat? ms
    let d ← digitsToNat? dcs
    let y ← digitsToNat? ys
    if 1 ≤ m ∧ m ≤ 12 ∧ 1 ≤ d ∧ d ≤ daysInMonth y m then some ⟨y, m, d⟩ else none
  | _ => none

/-- The fixed publication URL (`metadata["source"]` in `TSAETL.__init__`). -/
def sourceUrl : String := "https://www.tsa.gov/travel/passenger-volumes"

/-- The fixed series metadata built in `TSAETL.__init__`, in dict-key order;
`pfx` is the run context's series-id namespace string. -/
def tsaMetadata (pfx : String) : List (String × String) :=
  [("country", "US"),
   ("frequency", "daily"),
   ("series_id", pfx ++ "TSA\\passenger_volumes"),
   ("source", sourceUrl),
   ("unit", "number_of")]

/-- One cell of the `Date` column under `pd.to_datetime(..).dt.date`: a string
cell parses to a date, anything else raises. -/
def parseCell (v : Value) : Option Value :=
  match v with
  | .str s => (parseDateMDY s).map Value.date
  | _ => none

/-- `TSAETL.transform`: parse the `Date` column with `%m/%d/%Y`; when more than
two columns are present keep `Date` and the column named after the current
year, else rename `Date`/`Numbers`; rename to `travel_date`/`value`; attach the
metadata record as constant columns; uppercase all column names. `none` models
an exception escaping `transform`. -/
def transform (pfx : String) (currentYear : Nat) (df : DataFrame) : Option DataFrame := do
  let dateVals ← df.getCol "Date"
  let parsed ← mapOption parseCell dateVals
  let df1 := df.setCol "Date" parsed
  let df2 ←
    if df1.cols.length > 2 then
      (df1.selectCols ["Date", toString currentYear]).map
        (·.renameCol [("Date", "travel_date"), (toString currentYear, "value")])
    else
      some (df1.renameCol [("Date", "travel_date"), ("Numbers", "value")])
  let df3 := (tsaMetadata pfx).foldl (fun d kv => d.assignConst kv.1 (Value.str kv.2)) df2
  some df3.upperCols

/-- Destination coordinates for the warehouse connector
(`SnowflakeConfig` dataclass). -/
structure SnowflakeConfig where
  database : String
  schema : String
  table : String
  unique_keys : List String
deriving DecidableEq

/-- The dtype-name to SQL-type association used by
`SnowflakeConnector.snowflake_create_table`. -/
def dtype_mapping : List (String × String) :=
  [("object", "TEXT"),
   ("int64", "NUMBER"),
   ("float64", "FLOAT"),
   ("bool", "BOOLEAN"),
   ("datetime64[ns]", "TIMESTAMP_NTZ")]

/-- `dtype_mapping.get(str(dtype), "TEXT")`: the SQL type chosen for a pandas
dtype name, defaulting to `TEXT`. -/
def sql_type (dtype : String) : String :=
  (dtype_mapping.lookup dtype).getD "TEXT"

/-- `SnowflakeConnector.snowflake_create_table`: the `CREATE TABLE IF NOT
EXISTS` statement, one double-quoted column and SQL type per (column, dtype)
pair of `df.dtypes`, comma-joined in column order. -/
def snowflake_create_table (table_name : String) (dtypes : List (String × String)) : String :=
  let columns := dtypes.map fun cd => "\"" ++ cd.1 ++ "\" " ++ sql_type cd.2
  let columns_sql := String.intercalate ", " columns
  "CREATE TABLE IF NOT EXISTS " ++ table_name ++ " (" ++ columns_sql ++ ");"

/-- Whether a cell is an integer. -/
def Value.isInt : Value → Bool
  | .int _ => true
  | _ => false

/-- pandas dtype inference for the column values this program produces: an
all-integer nonempty column is `int64`, everything else (strings, calendar
dates, mixed, empty) is `object`. -/
def colDtype (vs : List Value) : String :=
  if vs ≠ [] ∧ vs.all Value.isInt then "int64" else "object"

/-- `df.dtypes.items()`: each column name with its inferred dtype name. -/
def DataFrame.dtypes (df : DataFrame) : List (String × String) :=
  df.cols.map fun c => (c.1, colDtype c.2)

/-- The `ON` condition of the merge statement: `" AND "`-joined equality of
target and source on each configured unique-key column. -/
def merge_condition (unique_keys : List String) : String :=
  String.intercalate " AND "
    (unique_keys.map fun col => "target.\"" ++ col ++ "\" = source.\"" ++ col ++ "\"")

/-- The insert column list of the merge statement: every column of the input
dataframe, double-quoted, comma-joined. -/
def columns_list (cols : List String) : String :=
  String.intercalate ", " (cols.map fun col => "\"" ++ col ++ "\"")

/-- The insert value list of the merge statement: `source."col"` for every
column of the input dataframe, comma-joined. -/
def source_columns_list (cols : List String) : String :=
  String.intercalate ", " (cols.map fun col => "source.\"" ++ col ++ "\"")

/-- The `MERGE` statement built in `load_dataframe_to_snowflake`: the
`textwrap.dedent` of the source's f-string literal, i.e. a leading newline,
the six statement lines, and a trailing newline. -/
def merge_stmt (table : String) (unique_keys cols : List String) : String :=
  "\n" ++
  "MERGE INTO " ++ table ++ " AS target" ++ "\n" ++
  "USING " ++ table ++ "_staging AS source" ++ "\n" ++
  "ON " ++ merge_condition unique_keys ++ "\n" ++
  "WHEN NOT MATCHED THEN" ++ "\n" ++
  "INSERT (" ++ columns_list cols ++ ")" ++ "\n" ++
  "VALUES (" ++ source_columns_list cols ++ ");" ++ "\n"

/-- Outcomes of the warehouse statements issued by one load call: for each
statement text, whether `cursor.execute` raises (`some` error) or succeeds;
whether `write_pandas` raises or returns a `(success, nrows)` pair; whether
`ctx.commit()` raises. -/
structure LoadOracle where
  execOutcome : String → Option String
  writeOutcome : Except String (Bool × Nat)
  commitOutcome : Option String

/-- Run statements in order through the cursor, stopping at the first one
whose `execute` raises. -/
def runStmts (execOutcome : String → Option String) : List String → Option String
  | [] => none
  | s :: rest =>
    match execOutcome s with
    | some e => some e
    | none => runStmts execOutcome rest

/-- The provisioning statements executed by `load_dataframe_to_snowflake`
before the staging write, in source order: create/use database, create/use
schema, create destination table, create staging table. -/
def provisioningStmts (cfg : SnowflakeConfig) (df : DataFrame) : List String :=
  ["CREATE DATABASE IF NOT EXISTS " ++ cfg.database,
   "USE DATABASE " ++ cfg.database,
   "CREATE SCHEMA IF NOT EXISTS " ++ cfg.schema,
   "USE SCHEMA " ++ cfg.schema,
   snowflake_create_table cfg.table df.dtypes,
   "CREATE OR REPLACE TEMPORARY TABLE " ++ cfg.table ++ "_staging LIKE " ++ cfg.table]

/-- `SnowflakeConnector.load_dataframe_to_snowflake`: run the provisioning
statements, the staging write (escalating a reported failure to a
`RuntimeError`), the merge and the commit, short-circuiting at the first
raise; the `try`/`finally` closes the session on every one of these paths, so
the result is paired with the session's final closed flag, always `true`. -/
def load_dataframe_to_snowflake (cfg : SnowflakeConfig) (df : DataFrame)
    (o : LoadOracle) : Except String Unit × Bool :=
  let body : Except String Unit :=
    match runStmts o.execOutcome (provisioningStmts cfg df) with
    | some e => .error e
    | none =>
      match o.writeOutcome with
      | .error e => .error e
      | .ok (success, _nrows) =>
        if success then
          match o.execOutcome (merge_stmt cfg.table cfg.unique_keys (df.cols.map Prod.fst)) with
          | some e => .error e
          | none =>
            match o.commitOutcome with
            | some e => .error e
            | none => .ok ()
        else .error "Failed to write DataFrame to the staging table."
  (body, true)

/-- Python `dict.update`: overwrite each existing key in place, append each
new key on the right, in the update's order. -/
def dictUpdate : List (String × String) → List (String × String) → List (String × String)
  | d, [] => d
  | d, kv :: rest =>
    dictUpdate
      (if (d.lookup kv.1).isSome then d.map fun p => if p.1 = kv.1 then kv else p
       else d ++ [kv])
      rest

/-- Outcome of the read path's `SELECT`: whether it raises, and the rows the
configured table holds (what `fetch_pandas_all` materializes on success). -/
structure ReadOracle where
  selectOutcome : Option String
  tableRows : DataFrame

/-- The statement the read path executes. -/
def select_all_stmt (cfg : SnowflakeConfig) : String :=
  "SELECT * FROM " ++ cfg.table ++ ";"

/-- `SnowflakeConnector.extract_dataframe_from_snowflake`: first
`self.connection_params.update({"database": .., "schema": ..})` (an in-place
mutation of the mapping the connector was constructed with), then connect,
`SELECT *`, and fetch; the `try`/`finally` closes the session whether the
select raises or succeeds. Returns (result, session closed, the
connection-parameters mapping after the call). -/
def extract_dataframe_from_snowflake (params : List (String × String))
    (cfg : SnowflakeConfig) (o : ReadOracle) :
    Except String DataFrame × Bool × List (String × String) :=
  let params2 := dictUpdate params [("database", cfg.database), ("schema", cfg.schema)]
  let body : Except String DataFrame :=
    match o.selectOutcome with
    | some e => .error e
    | none => .ok o.tableRows
  (body, true, params2)

/-- One pipeline instance: the fields of `TSAETL.__init__` the driver claims
depend on (target year and resolved fetch URL). -/
structure TSAETL where
  year : Nat
  url : String
deriving DecidableEq

/-- The fetch URL resolved in `TSAETL.__init__`: the bare publication URL for
the current calendar year, otherwise the publication URL with `/{year}`
appended. -/
def urlFor (currentYear year : Nat) : String :=
  if year = currentYear then sourceUrl else sourceUrl ++ "/" ++ toString year

/-- `TSAETL(year)`: construct one pipeline instance. -/
def TSAETL.init (currentYear year : Nat) : TSAETL :=
  ⟨year, urlFor currentYear year⟩

/-- The driver loop body, by remaining iteration count: construct the
instance for year `y`, run its etl; when that run raises (`fails y`) the loop
aborts, otherwise continue with `y + 1`. Returns the instances whose etl was
invoked, in invocation order. -/
def runYears (currentYear : Nat) (fails : Nat → Bool) : Nat → Nat → List TSAETL
  | _, 0 => []
  | y, n + 1 =>
    let inst := TSAETL.init currentYear y
    if fails y then [inst] else inst :: runYears currentYear fails (y + 1) n

/-- `main()`: iterate `range(start_year, current_year + 1)`; `fails` is the
oracle saying whether a given year's extract-transform-load sequence raises. -/
def mainRun (startYear currentYear : Nat) (fails : Nat → Bool) : List TSAETL :=
  runYears currentYear fails startYear (currentYear + 1 - startYear)

/-- The three pipeline stages of `DataExtractor.etl`. -/
inductive Stage where
  | extraction
  | transformation
  | upload
deriving DecidableEq

/-- The stage name as spelled in the re-raised error message. -/
def Stage.label : Stage → String
  | .extraction => "Extraction"
  | .transformation => "Transformation"
  | .upload => "Upload"

/-- The stage-attributed `RuntimeError`: its message and, through
`raise ... from err`, the original error as cause. -/
structure StageError where
  message : String
  cause : String
deriving DecidableEq

/-- The message of the re-raised error,
`f"Scraper failed at {stage}. Error was {err}"`. -/
def stageMessage (st : Stage) (err : String) : String :=
  "Scraper failed at " ++ st.label ++ ". Error was " ++ err

/-- `DataExtractor.etl`: the three `try`/`except` blocks in sequence. Each
phase outcome is `.ok ()` or `.error msg`; the result records which stages
were entered (in order) and, when one raised, the stage-attributed error
that `etl` re-raises in its place. A raise skips the remaining stages. -/
def etlTrace (e t l : Except String Unit) : List Stage × Option StageError :=
  match e with
  | .error err => ([Stage.extraction], some ⟨stageMessage Stage.extraction err, err⟩)
  | .ok _ =>
    match t with
    | .error err =>
      ([Stage.extraction, Stage.transformation],
       some ⟨stageMessage Stage.transformation err, err⟩)
    | .ok _ =>
      match l with
      | .error err =>
        ([Stage.extraction, Stage.transformation, Stage.upload],
         some ⟨stageMessage Stage.upload err, err⟩)
      | .ok _ => ([Stage.extraction, Stage.transformation, Stage.upload], none)

/-- Number of days in year `y`. -/
def daysInYear (y : Nat) : Nat :=
  if isLeap y then 366 else 365

/-- The invocation date, as a year and a 1-based day of that year (valid when
`1 ≤ doy ≤ daysInYear year`). -/
structure Today where
  year : Nat
  doy : Nat
deriving DecidableEq

/-- `datetime.now() - timedelta(days=365)` at date granularity: step 365 days
back from `t`, landing in the same year exactly when `t.doy > 365`. -/
def minus365 (t : Today) : Today :=
  if t.doy > 365 then ⟨t.year, t.doy - 365⟩
  else ⟨t.year - 1, t.doy + daysInYear (t.year - 1) - 365⟩

/-- The `--start_year` default,
`int((datetime.now() - timedelta(days=365)).strftime("%Y"))`. -/
def defaultStartYear (t : Today) : Nat :=
  (minus365 t).year

/-- The `choices` list of `--start_year`:
`list(range(2019, datetime.now().year + 1))`. -/
def startYearChoices (currentYear : Nat) : List Nat :=
  List.range' 2019 (currentYear + 1 - 2019)

/-- `parse_args` restricted to `--start_year`: `none` means the flag was
omitted, so the (unchecked) default applies; an explicit value is accepted
exactly when it lies in the `choices` list, otherwise argparse exits with a
usage error (modelled as `.error ()`). -/
def parse_start_year (t : Today) (arg : Option Nat) : Except Unit Nat :=
  match arg with
  | none => .ok (defaultStartYear t)
  | some v => if v ∈ startYearChoices t.year then .ok v else .error ()

/-- Distinct values of a column in order of first appearance
(`pandas.Series.unique`). -/
def uniqueVals (vs : List Value) : List Value :=
  vs.foldl (fun acc v => if v ∈ acc then acc else acc ++ [v]) []

/-- `pandas.Series.nunique`: the number of distinct values. -/
def nuniqueVals (vs : List Value) : Nat :=
  (uniqueVals vs).length

/-- Zero-pad to two digits. -/
def pad2 (n : Nat) : String :=
  if n < 10 then "0" ++ toString n else toString n

/-- Zero-pad to four digits. -/
def pad4 (n : Nat) : String :=
  if n < 10 then "000" ++ toString n
  else if n < 100 then "00" ++ toString n
  else if n < 1000 then "0" ++ toString n
  else toString n

/-- Python `str(datetime.date)`: ISO `YYYY-MM-DD`. -/
def Date.toIso (d : Date) : String :=
  pad4 d.year ++ "-" ++ pad2 d.month ++ "-" ++ pad2 d.day

/-- Python `str` of a cell value, as used by `", ".join(map(str, ...))`. -/
def Value.toDisplay : Value → String
  | .str s => s
  | .int n => toString n
  | .date d => d.toIso

/-- One entry of the dashboard's metadata dict:
`df[col].unique()[0] if df[col].nunique() == 1 else ", ".join(map(str, df[col].unique()))`.
(The `headD` default is unreachable: `nunique = 1` forces a nonempty list.) -/
def metadataEntry (vs : List Value) : Value :=
  if nuniqueVals vs = 1 then (uniqueVals vs).headD (Value.str "")
  else Value.str (String.intercalate ", " ((uniqueVals vs).map Value.toDisplay))

/-- The columns the metadata summary ranges over: every column other than
`TRAVEL_DATE` and `VALUE`, in input order. -/
def metaCols (df : DataFrame) : List (String × List Value) :=
  df.cols.filter fun c => ¬ (c.1 = "TRAVEL_DATE" ∨ c.1 = "VALUE")

/-- `webapp.extract_metadata`: build the metadata dict over `metaCols` and
return it as a two-column table `Fields`/`Metadata`. -/
def extract_metadata (df : DataFrame) : DataFrame :=
  let metadata_dict := (metaCols df).map fun c => (c.1, metadataEntry c.2)
  ⟨[("Fields", metadata_dict.map fun kv => Value.str kv.1),
    ("Metadata", metadata_dict.map Prod.snd)]⟩

/-- C5: for every table name and column/dtype list, the creation statement is
`CREATE TABLE IF NOT EXISTS <table>` followed by one double-quoted column and
SQL type per column in order, the type being TEXT for `object`, NUMBER for
`int64`, FLOAT for `float64`, BOOLEAN for `bool`, TIMESTAMP_NTZ for
`datetime64[ns]`, and TEXT for any other dtype; and for `{id: int64,
name: object}` the statement is exactly
`CREATE TABLE IF NOT EXISTS test_table ("id" NUMBER, "name" TEXT);`. -/
theorem snowflake_create_table_correct :
    (∀ (name : String) (dtypes : List (String × String)),
        snowflake_create_table name dtypes =
          "CREATE TABLE IF NOT EXISTS " ++ name ++ " (" ++
            String.intercalate ", "
              (dtypes.map fun cd => "\"" ++ cd.1 ++ "\" " ++ sql_type cd.2) ++ ");")
  ∧ sql_type "object" = "TEXT"
  ∧ sql_type "int64" = "NUMBER"
  ∧ sql_type "float64" = "FLOAT"
  ∧ sql_type "bool" = "BOOLEAN"
  ∧ sql_type "datetime64[ns]" = "TIMESTAMP_NTZ"
  ∧ (∀ t : String, t ∉ dtype_mapping.map Prod.fst → sql_type t = "TEXT")
  ∧ snowflake_create_table "test_table" [("id", "int64"), ("name", "object")] =
      "CREATE TABLE IF NOT EXISTS test_table (\"id\" NUMBER, \"name\" TEXT);" := by
  refine ⟨fun name dtypes => rfl, rfl, rfl, rfl, rfl, rfl, ?_, by decide⟩
  intro t ht
  simp only [dtype_mapping, List.map_cons, List.map_nil, List.mem_cons, List.not_mem_nil,
    or_false, not_or] at ht
  obtain ⟨h1, h2, h3, h4, h5⟩ := ht
  have b1 : (t == "object") = false := by simp [h1]
  have b2 : (t == "int64") = false := by simp [h2]
  have b3 : (t == "float64") = false := by simp [h3]
  have b4 : (t == "bool") = false := by simp [h4]
  have b5 : (t == "datetime64[ns]") = false := by simp [h5]
  simp [sql_type, dtype_mapping, List.lookup, b1, b2, b3, b4, b5]

/-- Witness for C5: a dtype outside the mapping falls back to TEXT. -/
theorem snowflake_create_table_correct_witness : sql_type "uint8" = "TEXT" :=
  snowflake_create_table_correct.2.2.2.2.2.2.1 "uint8" (by decide)

/-- C2: for every table name, unique-key configuration and input dataframe,
the generated MERGE statement consists of exactly these six lines: merge from
the staging table into the destination, an `ON` clause which is the `AND` of
target/source equality on each configured unique-key column and nothing else,
and a single `WHEN NOT MATCHED THEN INSERT` branch listing every column of the
input dataframe; no `WHEN MATCHED`/update branch exists. -/
theorem merge_stmt_insert_only (table : String) (unique_keys : List String) (df : DataFrame) :
    merge_stmt table unique_keys (df.cols.map Prod.fst) =
      "\n" ++ String.intercalate "\n"
        ["MERGE INTO " ++ table ++ " AS target",
         "USING " ++ table ++ "_staging AS source",
         "ON " ++ String.intercalate " AND "
           (unique_keys.map fun k => "target.\"" ++ k ++ "\" = source.\"" ++ k ++ "\""),
         "WHEN NOT MATCHED THEN",
         "INSERT (" ++ String.intercalate ", "
           ((df.cols.map Prod.fst).map fun col => "\"" ++ col ++ "\"") ++ ")",
         "VALUES (" ++ String.intercalate ", "
           ((df.cols.map Prod.fst).map fun col => "source.\"" ++ col ++ "\"") ++ ");"] ++ "\n" := by
  simp [merge_stmt, merge_condition, columns_list, source_columns_list,
    String.intercalate, String.intercalate.go, ← String.append_assoc]

/-- C4: every phase error of `etl` is re-raised with stage attribution and the
original cause: an extraction error yields the extraction-stage error with
only the extraction stage entered, a transformation error the
transformation-stage error with no load entered, a load error the
upload-stage error; and no error escapes silently — the outcome is error-free
exactly when all three phases succeed. -/
theorem etl_stage_attribution (e t l : Except String Unit) :
    (∀ err, e = .error err →
        etlTrace e t l =
          ([Stage.extraction], some ⟨stageMessage Stage.extraction err, err⟩))
  ∧ (∀ err, e = .ok () → t = .error err →
        etlTrace e t l =
          ([Stage.extraction, Stage.transformation],
           some ⟨stageMessage Stage.transformation err, err⟩))
  ∧ (∀ err, e = .ok () → t = .ok () → l = .error err →
        etlTrace e t l =
          ([Stage.extraction, Stage.transformation, Stage.upload],
           some ⟨stageMessage Stage.upload err, err⟩))
  ∧ ((etlTrace e t l).2 = none ↔ e = .ok () ∧ t = .ok () ∧ l = .ok ()) := by
  cases e <;> cases t <;> cases l <;> simp [etlTrace]

/-- Witness for C4: a failing extract phase is re-raised as the
extraction-stage error carrying the original message as cause. -/
theorem etl_stage_attribution_witness :
    etlTrace (Except.error "boom") (Except.ok ()) (Except.ok ()) =
      ([Stage.extraction], some ⟨stageMessage Stage.extraction "boom", "boom"⟩) :=
  (etl_stage_attribution (Except.error "boom") (Except.ok ()) (Except.ok ())).1 "boom" rfl

/-- `takeWhile` with an always-true predicate keeps the whole list. -/
theorem takeWhile_top (l : List Nat) : l.takeWhile (fun _ => true) = l := by
  induction l <;> simp_all [List.takeWhile]

/-- `dropWhile` with an always-true predicate drops the whole list. -/
theorem dropWhile_top (l : List Nat) : l.dropWhile (fun _ => true) = [] := by
  induction l <;> simp_all [List.dropWhile]

/-- The years whose etl the driver loop invokes: the failure-free ascending
prefix of the iteration range, plus the first failing year when one exists. -/
theorem runYears_map_year (currentYear : Nat) (fails : Nat → Bool) :
    ∀ (n y : Nat),
      (runYears currentYear fails y n).map TSAETL.year =
        (List.range' y n).takeWhile (fun z => !fails z) ++
          ((List.range' y n).dropWhile (fun z => !fails z)).take 1
  | 0, _ => by simp [runYears, List.range']
  | n + 1, y => by
    by_cases h : fails y
    · simp [runYears, List.range', TSAETL.init, h]
    · simp [runYears, List.range', TSAETL.init, h, runYears_map_year currentYear fails n (y + 1)]

/-- Every instance the driver loop constructs carries the URL resolved by
`TSAETL.__init__` for its year. -/
theorem runYears_url (currentYear : Nat) (fails : Nat → Bool) :
    ∀ (n y : Nat), ∀ inst ∈ runYears currentYear fails y n,
      inst.url = urlFor currentYear inst.year
  | 0, _ => by simp [runYears]
  | n + 1, y => by
    intro inst hinst
    by_cases h : fails y
    · simp [runYears, h, TSAETL.init] at hinst
      subst hinst
      rfl
    · simp [runYears, h, TSAETL.init] at hinst
      rcases hinst with rfl | hmem
      · rfl
      · exact runYears_url currentYear fails n (y + 1) inst hmem

/-- C3: for `start_year ≤ current_year`, `main()` runs one pipeline instance
per year of the inclusive range in ascending order — all of them when no year
fails, and, in general, exactly the failure-free prefix followed by the first
failing year, so no later year is invoked after a raise; each constructed
instance fetches the bare publication URL for the current calendar year and
the `/{year}`-suffixed URL otherwise. -/
theorem main_driver (startYear currentYear : Nat) (fails : Nat → Bool)
    (h : startYear ≤ currentYear) :
    ((mainRun startYear currentYear fails).map TSAETL.year =
        (List.range' startYear (currentYear + 1 - startYear)).takeWhile (fun z => !fails z) ++
          ((List.range' startYear (currentYear + 1 - startYear)).dropWhile
            (fun z => !fails z)).take 1)
  ∧ ((∀ y, fails y = false) →
        (mainRun startYear currentYear fails).map TSAETL.year =
          List.range' startYear (currentYear + 1 - startYear))
  ∧ (∀ inst ∈ mainRun startYear currentYear fails,
        inst.url =
          if inst.year = currentYear then sourceUrl
          else sourceUrl ++ "/" ++ toString inst.year) := by
  refine ⟨runYears_map_year currentYear fails _ startYear, ?_, ?_⟩
  · intro hfails
    have hpred : (fun z => !fails z) = fun _ => true := by
      funext z
      simp [hfails z]
    have hrw := runYears_map_year currentYear fails (currentYear + 1 - startYear) startYear
    rw [hpred] at hrw
    rw [takeWhile_top, dropWhile_top] at hrw
    simpa using hrw
  · intro inst hinst
    rw [runYears_url currentYear fails _ startYear inst hinst]
    rfl

/-- Witness for C3: over 2022..2024 with 2023 failing, the driver runs 2022
then 2023 and never 2024, with the documented URLs. -/
theorem main_driver_witness :
    ((mainRun 2022 2024 (fun y => y == 2023)).map TSAETL.year =
        (List.range' 2022 3).takeWhile (fun z => !(z == 2023)) ++
          ((List.range' 2022 3).dropWhile (fun z => !(z == 2023))).take 1)
  ∧ ((∀ y, (y == 2023) = false) →
        (mainRun 2022 2024 (fun y => y == 2023)).map TSAETL.year = List.range' 2022 3)
  ∧ (∀ inst ∈ mainRun 2022 2024 (fun y => y == 2023),
        inst.url =
          if inst.year = 2024 then sourceUrl
          else sourceUrl ++ "/" ++ toString inst.year) :=
  main_driver 2022 2024 (fun y => y == 2023) (by decide)

/-- Mapping the date parser over string cells: if every date string parses,
`parseCell` maps the corresponding string column to the date column. -/
theorem mapM_parseCell_str (dates : List String) (ds : List Date)
    (h : mapOption parseDateMDY dates = some ds) :
    mapOption parseCell (dates.map Value.str) = some (ds.map Value.date) := by
  induction dates generalizing ds with
  | nil =>
    simp only [mapOption, Option.some.injEq] at h
    subst h
    simp [mapOption]
  | cons a rest ih =>
    rw [mapOption_cons] at h
    simp only [Option.bind_eq_some, Option.some.injEq] at h
    obtain ⟨b, hb, bs, hbs, hcons⟩ := h
    subst hcons
    rw [List.map_cons, mapOption_cons]
    simp [parseCell, hb, ih bs hbs]

/-- C1: for every two-column table `(Date, Numbers)` whose `Date` strings all
parse under `%m/%d/%Y`, `transform` yields exactly the columns `TRAVEL_DATE,
VALUE, COUNTRY, FREQUENCY, SERIES_ID, SOURCE, UNIT` in that order (all names
uppercase), with `TRAVEL_DATE` the parsed calendar dates, `VALUE` the
`Numbers` values, and the metadata columns constant. -/
theorem transform_two_column (pfx : String) (currentYear : Nat)
    (dates : List String) (nums : List Value) (ds : List Date)
    (h : mapOption parseDateMDY dates = some ds) :
    transform pfx currentYear
        ⟨[("Date", dates.map Value.str), ("Numbers", nums)]⟩ =
      some ⟨[("TRAVEL_DATE", ds.map Value.date),
             ("VALUE", nums),
             ("COUNTRY", List.replicate ds.length (Value.str "US")),
             ("FREQUENCY", List.replicate ds.length (Value.str "daily")),
             ("SERIES_ID",
              List.replicate ds.length (Value.str (pfx ++ "TSA\\passenger_volumes"))),
             ("SOURCE", List.replicate ds.length (Value.str sourceUrl)),
             ("UNIT", List.replicate ds.length (Value.str "number_of"))]⟩ := by
  have hm := mapM_parseCell_str dates ds h
  have h1 : strUpper "travel_date" = "TRAVEL_DATE" := rfl
  have h2 : strUpper "value" = "VALUE" := rfl
  have h3 : strUpper "country" = "COUNTRY" := rfl
  have h4 : strUpper "frequency" = "FREQUENCY" := rfl
  have h5 : strUpper "series_id" = "SERIES_ID" := rfl
  have h6 : strUpper "source" = "SOURCE" := rfl
  have h7 : strUpper "unit" = "UNIT" := rfl
  simp [transform, DataFrame.getCol, DataFrame.setCol, DataFrame.renameCol,
    DataFrame.assignConst, DataFrame.numRows, DataFrame.upperCols, tsaMetadata,
    List.lookup, hm, h1, h2, h3, h4, h5, h6, h7]

/-- Witness for C1: the spec's concrete example table. -/
theorem transform_two_column_witness :
    transform "uat\\" 2022
        ⟨[("Date", [Value.str "01/01/2022", Value.str "01/02/2022"]),
          ("Numbers", [Value.int 100, Value.int 200])]⟩ =
      some ⟨[("TRAVEL_DATE", [Value.date ⟨2022, 1, 1⟩, Value.date ⟨2022, 1, 2⟩]),
             ("VALUE", [Value.int 100, Value.int 200]),
             ("COUNTRY", List.replicate 2 (Value.str "US")),
             ("FREQUENCY", List.replicate 2 (Value.str "daily")),
             ("SERIES_ID",
              List.replicate 2 (Value.str ("uat\\" ++ "TSA\\passenger_volumes"))),
             ("SOURCE", List.replicate 2 (Value.str sourceUrl)),
             ("UNIT", List.replicate 2 (Value.str "number_of"))]⟩ :=
  transform_two_column "uat\\" 2022 ["01/01/2022", "01/02/2022"]
    [Value.int 100, Value.int 200] [⟨2022, 1, 1⟩, ⟨2022, 1, 2⟩] (by decide)

/-- C6: both warehouse operations close their session on every exit path: the
load operation whether provisioning raises, the staging write raises or
reports failure (the latter escalated to the fatal staging-write error), or
the merge/commit raises; and the read operation whether the SELECT raises or
succeeds — on success returning exactly the rows of `SELECT *` on the
configured table. -/
theorem warehouse_sessions_closed (cfg : SnowflakeConfig) (df : DataFrame)
    (o : LoadOracle) (params : List (String × String)) (ro : ReadOracle) :
    ((load_dataframe_to_snowflake cfg df o).2 = true)
  ∧ (runStmts o.execOutcome (provisioningStmts cfg df) = none →
      ∀ n, o.writeOutcome = .ok (false, n) →
        (load_dataframe_to_snowflake cfg df o).1 =
          .error "Failed to write DataFrame to the staging table.")
  ∧ ((extract_dataframe_from_snowflake params cfg ro).2.1 = true)
  ∧ (ro.selectOutcome = none →
      (extract_dataframe_from_snowflake params cfg ro).1 = .ok ro.tableRows) := by
  refine ⟨rfl, ?_, rfl, ?_⟩
  · intro hrun n hw
    simp [load_dataframe_to_snowflake, hrun, hw]
  · intro hsel
    simp [extract_dataframe_from_snowflake, hsel]

/-- Witness for C6: a reported-unsuccessful staging write becomes the fatal
staging-write error, and a successful read returns the table's rows. -/
theorem warehouse_sessions_closed_witness :
    ((load_dataframe_to_snowflake ⟨"db", "sc", "t", ["TRAVEL_DATE"]⟩ ⟨[]⟩
        ⟨fun _ => none, .ok (false, 0), none⟩).1 =
      .error "Failed to write DataFrame to the staging table.")
  ∧ ((extract_dataframe_from_snowflake [] ⟨"db", "sc", "t", ["TRAVEL_DATE"]⟩
        ⟨none, ⟨[]⟩⟩).1 = .ok ⟨[]⟩) :=
  ⟨(warehouse_sessions_closed ⟨"db", "sc", "t", ["TRAVEL_DATE"]⟩ ⟨[]⟩
      ⟨fun _ => none, .ok (false, 0), none⟩ [] ⟨none, ⟨[]⟩⟩).2.1 rfl 0 rfl,
   (warehouse_sessions_closed ⟨"db", "sc", "t", ["TRAVEL_DATE"]⟩ ⟨[]⟩
      ⟨fun _ => none, .ok (false, 0), none⟩ [] ⟨none, ⟨[]⟩⟩).2.2.2 rfl⟩

/-- C7 as stated fails on the code: the read operation mutates the
connection-parameters mapping it was constructed with — after the call the
mapping has gained `database` and `schema` keys. -/
theorem read_mutates_connection_params :
    (extract_dataframe_from_snowflake [("account", "test_account")]
        ⟨"db", "sc", "t", ["TRAVEL_DATE"]⟩ ⟨none, ⟨[]⟩⟩).2.2 ≠
      [("account", "test_account")] := by decide

/-- Overwriting the entry at one key leaves lookups at other keys unchanged. -/
theorem lookup_map_overwrite (k1 v1 k : String) (h : k ≠ k1) :
    ∀ d : List (String × String),
      (d.map fun p => if p.1 = k1 then (k1, v1) else p).lookup k = d.lookup k := by
  have hb : (k == k1) = false := by simp [h]
  intro d
  induction d with
  | nil => rfl
  | cons p rest ih =>
    obtain ⟨p1, p2⟩ := p
    by_cases hp : p1 = k1
    · subst hp
      simp only [List.map_cons, if_pos rfl, List.lookup_cons, hb]
      have hb2 : (k == p1) = false := hb
      simp [List.lookup_cons, hb2, ih]
    · simp only [List.map_cons, if_neg hp, List.lookup_cons, ih]

/-- Appending an entry with a fresh key leaves lookups at other keys
unchanged. -/
theorem lookup_append_single (k1 v1 k : String) (h : k ≠ k1) :
    ∀ d : List (String × String), (d ++ [(k1, v1)]).lookup k = d.lookup k := by
  have hb : (k == k1) = false := by simp [h]
  intro d
  induction d with
  | nil => simp [List.lookup_cons, hb, List.lookup]
  | cons p rest ih =>
    obtain ⟨p1, p2⟩ := p
    simp only [List.cons_append, List.lookup_cons, ih]

/-- `dict.update` leaves lookups unchanged at every key absent from the
update. -/
theorem lookup_dictUpdate_notin (upd : List (String × String)) :
    ∀ (d : List (String × String)) (k : String), (∀ kv ∈ upd, k ≠ kv.1) →
      (dictUpdate d upd).lookup k = d.lookup k := by
  induction upd with
  | nil => intro d k _; rfl
  | cons kv rest ih =>
    intro d k h
    have hk : k ≠ kv.1 := h kv (List.mem_cons_self kv rest)
    have hr : ∀ p ∈ rest, k ≠ p.1 := fun p hp => h p (List.mem_cons_of_mem kv hp)
    rw [dictUpdate]
    by_cases hs : (d.lookup kv.1).isSome = true
    · rw [if_pos hs, ih _ k hr]
      exact lookup_map_overwrite kv.1 kv.2 k hk d
    · rw [if_neg hs, ih _ k hr]
      exact lookup_append_single kv.1 kv.2 k hk d

/-- C7 amended: the read operation updates the connection-parameters mapping
in place with precisely the configured `database` and `schema` entries before
connecting; every other key's binding is left unchanged. -/
theorem read_updates_only_db_schema (params : List (String × String))
    (cfg : SnowflakeConfig) (o : ReadOracle) :
    ((extract_dataframe_from_snowflake params cfg o).2.2 =
        dictUpdate params [("database", cfg.database), ("schema", cfg.schema)])
  ∧ (∀ k, k ≠ "database" → k ≠ "schema" →
        ((extract_dataframe_from_snowflake params cfg o).2.2).lookup k =
          params.lookup k) := by
  refine ⟨rfl, ?_⟩
  intro k h1 h2
  refine lookup_dictUpdate_notin _ params k ?_
  intro kv hkv
  simp only [List.mem_cons, List.not_mem_nil, or_false] at hkv
  rcases hkv with rfl | rfl
  · exact h1
  · exact h2

/-- Witness for C7 (amended): the `account` entry survives the read
operation's in-place update. -/
theorem read_updates_only_db_schema_witness :
    ((extract_dataframe_from_snowflake [("account", "a")]
        ⟨"db", "sc", "t", []⟩ ⟨none, ⟨[]⟩⟩).2.2).lookup "account" = some "a" :=
  ((read_updates_only_db_schema [("account", "a")] ⟨"db", "sc", "t", []⟩
      ⟨none, ⟨[]⟩⟩).2 "account" (by decide) (by decide)).trans rfl

/-- C9 as stated fails on the code: on day 366 of a leap year (December 31),
the default start year `(today - 365 days).year` is the current year itself,
not the current year minus 1. -/
theorem default_start_year_leap_dec31 :
    isLeap 2024 = true ∧ daysInYear 2024 = 366
  ∧ parse_start_year ⟨2024, 366⟩ none = .ok 2024
  ∧ (2024 : Nat) ≠ 2024 - 1 :=
  ⟨by decide, by decide, rfl, by decide⟩

/-- C9 amended: when `--start_year` is omitted the parsed start year is the
year of (today − 365 days) — the current calendar year minus 1 on every date
except day 366 of a leap year, where it is the current year itself; and every
explicit value below 2019 or above the current year is rejected with a usage
error. -/
theorem parse_args_start_year (t : Today)
    (ht : 1 ≤ t.doy ∧ t.doy ≤ daysInYear t.year) :
    (t.doy ≤ 365 → parse_start_year t none = .ok (t.year - 1))
  ∧ (t.doy = 366 → parse_start_year t none = .ok t.year)
  ∧ (∀ v, v < 2019 → parse_start_year t (some v) = .error ())
  ∧ (∀ v, t.year < v → parse_start_year t (some v) = .error ()) := by
  refine ⟨?_, ?_, ?_, ?_⟩
  · intro hd
    simp [parse_start_year, defaultStartYear, minus365, Nat.not_lt.mpr hd]
  · intro hd
    simp [parse_start_year, defaultStartYear, minus365, hd]
  · intro v hv
    have hnm : v ∉ startYearChoices t.year := by
      intro hmem
      rw [startYearChoices, List.mem_range'_1] at hmem
      omega
    simp [parse_start_year, hnm]
  · intro v hv
    have hnm : v ∉ startYearChoices t.year := by
      intro hmem
      rw [startYearChoices, List.mem_range'_1] at hmem
      omega
    simp [parse_start_year, hnm]

/-- Witness for C9 (amended): on an ordinary date the default is the previous
year, and 2018 is rejected. -/
theorem parse_args_start_year_witness :
    (parse_start_year ⟨2025, 100⟩ none = .ok 2024)
  ∧ (parse_start_year ⟨2025, 100⟩ (some 2018) = .error ()) :=
  ⟨(parse_args_start_year ⟨2025, 100⟩ (by decide)).1 (by decide),
   (parse_args_start_year ⟨2025, 100⟩ (by decide)).2.2.1 2018 (by decide)⟩

/-- Lexicographic comparison of character lists (claim-side notion of string
order for the spec word "sorted"). -/
def charListLeb : List Char → List Char → Bool
  | [], _ => true
  | _ :: _, [] => false
  | a :: as, b :: bs => if a = b then charListLeb as bs else decide (a < b)

/-- Lexicographic string comparison over the characters. -/
def strLeb (a b : String) : Bool :=
  charListLeb a.data b.data

/-- Insert a string into a sorted list, keeping it sorted. -/
def insertSortedStr (s : String) : List String → List String
  | [] => [s]
  | t :: rest => if strLeb s t then s :: t :: rest else t :: insertSortedStr s rest

/-- Insertion sort on strings. -/
def sortStrings : List String → List String
  | [] => []
  | s :: rest => insertSortedStr s (sortStrings rest)

/-- The claim's reading of the metadata entry for a non-constant column: the
comma-joined list of the column's distinct values in sorted order. -/
def sortedJoin (vs : List Value) : String :=
  String.intercalate ", " (sortStrings ((uniqueVals vs).map Value.toDisplay))

/-- C8 as stated fails on the code: for a column holding `b` then `a`, the
dashboard joins the distinct values in order of first appearance, producing
`"b, a"`, while the claim's sorted order would produce `"a, b"`. -/
theorem extract_metadata_not_sorted :
    (((extract_metadata
          ⟨[("TRAVEL_DATE", [Value.int 0, Value.int 1]),
            ("VALUE", [Value.int 5, Value.int 6]),
            ("COUNTRY", [Value.str "b", Value.str "a"])]⟩).cols.lookup "Metadata") =
        some [Value.str "b, a"])
  ∧ sortedJoin [Value.str "b", Value.str "a"] = "a, b"
  ∧ ("b, a" : String) ≠ "a, b" := by decide

/-- Distinct values in order of first appearance, the textbook way: keep the
head and deduplicate the tail with the head's occurrences removed. -/
def distinctInOrder : List Value → List Value
  | [] => []
  | v :: rest => v :: distinctInOrder (rest.filter fun u => u ≠ v)
termination_by l => l.length
decreasing_by
  simp only [List.length_cons]
  exact Nat.lt_succ_of_le (List.length_filter_le _ _)

/-- Unfolding equation of `distinctInOrder` on a cons cell. -/
theorem distinctInOrder_cons (v : Value) (rest : List Value) :
    distinctInOrder (v :: rest) = v :: distinctInOrder (rest.filter fun u => u ≠ v) := by
  rw [distinctInOrder.eq_def]

/-- The `foldl` accumulator loop of `Series.unique` computes `distinctInOrder`
of the elements not yet seen. -/
theorem uniqueVals_loop (vs : List Value) :
    ∀ acc : List Value,
      vs.foldl (fun acc v => if v ∈ acc then acc else acc ++ [v]) acc =
        acc ++ distinctInOrder (vs.filter fun u => u ∉ acc) := by
  induction vs with
  | nil =>
    intro acc
    simp [distinctInOrder]
  | cons v rest ih =>
    intro acc
    by_cases hv : v ∈ acc
    · have hfv : (decide (v ∉ acc)) = false := by simp [hv]
      simp only [List.foldl_cons, if_pos hv, List.filter_cons, hfv, Bool.false_eq_true,
        if_false]
      exact ih acc
    · have hfv : (decide (v ∉ acc)) = true := by simp [hv]
      simp only [List.foldl_cons, if_neg hv, List.filter_cons, hfv, eq_self_iff_true, if_true]
      rw [ih (acc ++ [v]), distinctInOrder_cons, List.filter_filter]
      have hpred :
          (rest.filter fun u => decide (u ∉ acc ++ [v])) =
            rest.filter fun u => decide (u ≠ v) && decide (u ∉ acc) := by
        refine List.filter_congr ?_
        intro u _
        by_cases h1 : u = v
        · simp [h1, List.mem_append]
        · by_cases h2 : u ∈ acc <;> simp [h1, h2, List.mem_append]
      rw [hpred]
      simp [List.append_assoc]

/-- `Series.unique` returns the distinct values in order of first
appearance. -/
theorem uniqueVals_eq_distinctInOrder (vs : List Value) :
    uniqueVals vs = distinctInOrder vs := by
  have h := uniqueVals_loop vs []
  have hfilter : (vs.filter fun u => u ∉ ([] : List Value)) = vs := by
    refine List.filter_eq_self.mpr ?_
    intro u _
    simp
  rw [hfilter] at h
  simpa [uniqueVals] using h

/-- The claim-side metadata entry (amended): the single distinct value when
the column is constant, else the comma-join of the distinct values in order
of first appearance. -/
def specEntry (vs : List Value) : Value :=
  match distinctInOrder vs with
  | [v] => v
  | ds => Value.str (String.intercalate ", " (ds.map Value.toDisplay))

/-- The code's metadata entry coincides with the claim-side rule. -/
theorem metadataEntry_eq_specEntry (vs : List Value) :
    metadataEntry vs = specEntry vs := by
  rw [metadataEntry, specEntry, nuniqueVals, uniqueVals_eq_distinctInOrder]
  rcases hd : distinctInOrder vs with _ | ⟨v, _ | ⟨w, t⟩⟩
  · simp [hd]
  · simp [hd]
  · simp [hd]

/-- C8 amended: `extract_metadata` maps each column other than
`TRAVEL_DATE`/`VALUE`, in input order, to its single distinct value when the
column is constant across all rows, and otherwise to the comma-joined list of
its distinct values in order of first appearance (not sorted order). -/
theorem extract_metadata_rule (df : DataFrame) :
    extract_metadata df =
      ⟨[("Fields", (metaCols df).map fun c => Value.str c.1),
        ("Metadata", (metaCols df).map fun c => specEntry c.2)]⟩ := by
  simp [extract_metadata, metadataEntry_eq_specEntry, List.map_map, Function.comp_def]

/-- C10: `extract_metadata` always returns a table with exactly the two
columns `Fields` and `Metadata` in that order, holding one row per input
column other than `TRAVEL_DATE`/`VALUE` in the input's column order — and
zero rows, rather than failing, when no such column exists. -/
theorem extract_metadata_shape (df : DataFrame) :
    ((extract_metadata df).cols.map Prod.fst = ["Fields", "Metadata"])
  ∧ (∀ c ∈ (extract_metadata df).cols, c.2.length = (metaCols df).length)
  ∧ ((extract_metadata df).cols.lookup "Fields" =
      some ((metaCols df).map fun c => Value.str c.1))
  ∧ (metaCols df = [] → extract_metadata df = ⟨[("Fields", []), ("Metadata", [])]⟩) := by
  refine ⟨by simp [extract_metadata], ?_, ?_, ?_⟩
  · intro c hc
    simp only [extract_metadata, List.mem_cons, List.not_mem_nil, or_false] at hc
    rcases hc with rfl | rfl <;> simp
  · simp [extract_metadata, List.lookup, List.map_map, Function.comp_def]
  · intro h
    simp [extract_metadata, h]

/-- Witness for C10: on a table with only `TRAVEL_DATE` and `VALUE`, the
result is the two fixed columns with zero rows. -/
theorem extract_metadata_shape_witness :
    extract_metadata ⟨[("TRAVEL_DATE", []), ("VALUE", [])]⟩ =
      ⟨[("Fields", []), ("Metadata", [])]⟩ :=
  (extract_metadata_shape ⟨[("TRAVEL_DATE", []), ("VALUE", [])]⟩).2.2.2 (by decide)

end TsaEtl
